import Mathlib

/-!
# go-recaptcha: `Recaptcha.CheckRequest`

A shallow embedding of `recaptcha.go`.  The package is one function,
`CheckRequest`, which performs one outbound form POST and one JSON decode.

* Go's `error` is `Option String` (`none` is `nil`, `some m` an error whose
  `Error()` is `m`); a `*T` that may be `nil` is `Option T`.
* The calls `CheckRequest` makes on its collaborators are recorded, in program
  order, in an event trace that is returned next to the Go results, so that
  "no network call is made" or "the body is closed once" are statements about
  the returned trace.
* The transport (`http.Client.PostForm`), the process-wide
  `http.DefaultClient` and the JSON decoder are inputs of the embedding: the
  theorems quantify over all of them.
-/

namespace recaptcha

/-! ## Standard-library types used by the package -/

/-- The map type `url.Values` (`map[string][]string`), as an association list. -/
abbrev Values := List (String × List String)

/-- The fields of `http.Request` that `CheckRequest` reads: the parsed form and
the address of the peer. -/
structure Request where
  Form : Values
  RemoteAddr : String
deriving DecidableEq, Repr

/-- The method `(*http.Request).FormValue`: the first value stored under `key`,
and the empty string when there is none. -/
def Request.FormValue (r : Request) (key : String) : String :=
  match r.Form.lookup key with
  | some (v :: _) => v
  | _ => ""

/-- The value `time.Time`, by its civil fields and zone offset in seconds. -/
structure Time where
  year : Int
  month : Nat
  day : Nat
  hour : Nat
  minute : Nat
  second : Nat
  nsec : Nat
  offset : Int
deriving DecidableEq, Repr

/-- The zero `time.Time`: January 1, year 1, 00:00:00 UTC. -/
def Time.zero : Time := ⟨1, 1, 1, 0, 0, 0, 0, 0⟩

/-- The body of an `http.Response` (an `io.ReadCloser`): `data` is what
`ioutil.ReadAll` returns (the bytes, as text), `readErr` the error it returns with
it and `closeErr` what `Close` returns. -/
structure Body where
  data : String
  readErr : Option String
  closeErr : Option String
deriving DecidableEq, Repr

/-- The function `ioutil.ReadAll`: the bytes read and the error met, if any. -/
def ReadAll (b : Body) : String × Option String := (b.data, b.readErr)

/-- The fields of `http.Response` within reach of `CheckRequest`. -/
structure HttpResponse where
  StatusCode : Nat
  Body : Body
deriving DecidableEq, Repr

/-- An `*http.Client`: `addr` is the identity of the pointer, `PostForm` what
its method `PostForm` answers to a URL and a form. -/
structure Client where
  addr : Nat
  PostForm : String → Values → Except String HttpResponse

/-! ## `net.SplitHostPort` -/

/-- The index of the first `c` in `s` (`bytealg.IndexByteString`). -/
def IndexByteString : List Char → Char → Option Nat
  | [], _ => none
  | x :: xs, c => if x = c then some 0 else (IndexByteString xs c).map (· + 1)

/-- The index of the last `c` in `s` (`bytealg.LastIndexByteString`). -/
def LastIndexByteString : List Char → Char → Option Nat
  | [], _ => none
  | x :: xs, c =>
    match LastIndexByteString xs c with
    | some i => some (i + 1)
    | none => if x = c then some 0 else none

/-- The result `addrErr(addr, why)` of `net.SplitHostPort`: empty host, empty
port and an `*AddrError`, given by its message. -/
def addrErr (addr why : String) : String × String × Option String :=
  ("", "", some (if addr = "" then why else "address " ++ addr ++ ": " ++ why))

/-- The function `net.SplitHostPort`: host, port and error.  Indices count
characters where Go counts bytes; the separators `:`, `[` and `]` are ASCII, so the
pieces cut out are the same. -/
def SplitHostPort (hostport : String) : String × String × Option String :=
  let s := hostport.data
  let missingPort := "missing port in address"
  let tooManyColons := "too many colons in address"
  let finish (host : List Char) (i j k : Nat) : String × String × Option String :=
    if (IndexByteString (s.drop j) '[').isSome then
      addrErr hostport "unexpected \x27[\x27 in address"
    else if (IndexByteString (s.drop k) ']').isSome then
      addrErr hostport "unexpected \x27]\x27 in address"
    else (String.mk host, String.mk (s.drop (i + 1)), none)
  match LastIndexByteString s ':' with
  | none => addrErr hostport missingPort
  | some i =>
    if s.head? = some '[' then
      match IndexByteString s ']' with
      | none => addrErr hostport "missing \x27]\x27 in address"
      | some e =>
        if e + 1 = s.length then addrErr hostport missingPort
        else if e + 1 = i then finish ((s.take e).drop 1) i 1 (e + 1)
        else if s.get? (e + 1) = some ':' then addrErr hostport tooManyColons
        else addrErr hostport missingPort
    else
      let host := s.take i
      if (IndexByteString host ':').isSome then addrErr hostport tooManyColons
      else finish host i 0 0

/-! ## The package -/

/-- The URL of the Google reCaptcha API. -/
def apiURL : String := "https://www.google.com/recaptcha/api/siteverify"

/-- Response represents the response of the Google reCaptcha API.  A `nil`
slice of error codes is `none`, a non-nil one `some`. -/
structure Response where
  Success : Bool
  ChallengeTs : Time
  Hostname : String
  ErrorCodes : Option (List String)
deriving DecidableEq, Repr

/-- The composite literal `Response{}`: every field at its zero value. -/
def Response.zero : Response := ⟨false, Time.zero, "", none⟩

/-- The Recaptcha struct stores the Secret token. -/
structure Recaptcha where
  Secret : String
deriving DecidableEq, Repr

/-- What `CheckRequest` is linked against: the variable `http.DefaultClient`
and `json.Unmarshal` at type `*Response`, which takes the bytes and the value
the pointer refers to and gives the value it leaves there and its error. -/
structure Env where
  DefaultClient : Client
  Unmarshal : String → Response → Response × Option String

/-- A call made by `CheckRequest` on one of its collaborators. -/
inductive Event where
  | FormValue (key : String)
  | SplitHostPort (hostport : String)
  | PostForm (client : Nat) (url : String) (data : Values)
  | ReadAll (b : Body)
  | Unmarshal (data : String)
  | Close (b : Body)
deriving DecidableEq, Repr

/-- A finished call of `CheckRequest`: the two Go results, the calls made in
program order, and the receiver as the call leaves it. -/
structure Outcome where
  resp : Response
  err : Option String
  trace : List Event
  re : Recaptcha
deriving DecidableEq, Repr

/-- Lines 82-93 of `CheckRequest`: read the whole body and decode it.  `tr` is
the trace up to the `defer` statement. -/
def readAndDecode (env : Env) (re : Recaptcha) (tr : List Event) (b : Body) : Outcome :=
  let (body, err) := ReadAll b
  let tr := tr ++ [Event.ReadAll b]
  match err with
  | some e =>
    ⟨Response.zero, some ("Could not read response from Recaptcha service: " ++ e), tr, re⟩
  | none =>
    let (resp, err) := env.Unmarshal body Response.zero
    let tr := tr ++ [Event.Unmarshal body]
    match err with
    | some e =>
      ⟨Response.zero, some ("Invalid response from Recaptcha service: " ++ e), tr, re⟩
    | none => ⟨resp, none, tr, re⟩

/-- CheckRequest extracts the captcha response from the request and attempts to
verify it with the reCaptcha servers.  If the client argument is `none` (nil),
`http.DefaultClient` is used. -/
def CheckRequest (env : Env) (re : Recaptcha) (r : Option Request) (c : Option Client) :
    Outcome :=
  match r with
  | none => ⟨Response.zero, some "HTTP Request is nil", [], re⟩
  | some r =>
    let captcha := r.FormValue "g-recaptcha-response"
    let tr := [Event.FormValue "g-recaptcha-response"]
    if captcha = "" then
      ⟨Response.zero, some "No captcha response found in request body", tr, re⟩
    else
      let c := match c with
        | none => env.DefaultClient
        | some c => c
      let remoteip := (SplitHostPort r.RemoteAddr).1
      let tr := tr ++ [Event.SplitHostPort r.RemoteAddr]
      let data : Values :=
        [("secret", [re.Secret]), ("response", [captcha]), ("remoteip", [remoteip])]
      let tr := tr ++ [Event.PostForm c.addr apiURL data]
      match c.PostForm apiURL data with
      | Except.error e =>
        ⟨Response.zero, some ("Could not connect to Recaptcha service: " ++ e), tr, re⟩
      | Except.ok serverResponse =>
        -- `defer serverResponse.Body.Close()` runs once, when the function returns
        let out := readAndDecode env re tr serverResponse.Body
        { out with trace := out.trace ++ [Event.Close serverResponse.Body] }

/-! ## `json.Unmarshal` at `*Response`

`CheckRequest` takes the decoder from its environment.  The definitions below
give the decoder of the Go library to run it with, after the sources of
`encoding/json` (`scanner.go`, `decode.go`) and `time` (`format.go`,
`format_rfc3339.go`), for a struct with the four tagged fields of `Response`.  A
body is a text; the scanner and the time parser run on its UTF-8 bytes.  The
recursive functions take a fuel that starts at the length of the text left, more
than the steps they can take on it. -/

/-- The UTF-8 encoding of a character. -/
def utf8Char (c : Char) : List Nat :=
  let n := c.toNat
  if n < 0x80 then [n]
  else if n < 0x800 then [0xC0 + n / 64, 0x80 + n % 64]
  else if n < 0x10000 then [0xE0 + n / 4096, 0x80 + n / 64 % 64, 0x80 + n % 64]
  else [0xF0 + n / 262144, 0x80 + n / 4096 % 64, 0x80 + n / 64 % 64, 0x80 + n % 64]

/-- The bytes of a text. -/
def utf8 : List Char → List Nat
  | [] => []
  | c :: cs => utf8Char c ++ utf8 cs

/-- The digit of `lowerhex` at `n`. -/
def hexDigit (n : Nat) : Char := if n < 10 then Char.ofNat (48 + n) else Char.ofNat (87 + n)

/-- The function `quoteChar` of `scanner.go`: byte `c` between single quotes, as
`strconv.Quote` writes the character with that code. -/
def quoteChar (c : Nat) : String :=
  if c = 39 then "\x27\\\x27\x27"
  else if c = 34 then "\x27\"\x27"
  else if c = 92 then "\x27\\\\\x27"
  else if (0x20 ≤ c ∧ c ≤ 0x7E) ∨ (0xA1 ≤ c ∧ c ≤ 0xFF ∧ c ≠ 0xAD) then
    String.mk [Char.ofNat 39, Char.ofNat c, Char.ofNat 39]
  else if c = 7 then "\x27\\a\x27"
  else if c = 8 then "\x27\\b\x27"
  else if c = 12 then "\x27\\f\x27"
  else if c = 10 then "\x27\\n\x27"
  else if c = 13 then "\x27\\r\x27"
  else if c = 9 then "\x27\\t\x27"
  else if c = 11 then "\x27\\v\x27"
  else if c < 0x20 ∨ c = 0x7F then
    String.mk [Char.ofNat 39, '\\', 'x', hexDigit (c / 16), hexDigit (c % 16), Char.ofNat 39]
  else
    String.mk [Char.ofNat 39, '\\', 'u', '0', '0', hexDigit (c / 16), hexDigit (c % 16),
      Char.ofNat 39]

/-- What the scanner is inside of (`parseObjectKey`, `parseObjectValue`,
`parseArrayValue`). -/
inductive ParseState where
  | parseObjectKey
  | parseObjectValue
  | parseArrayValue
deriving DecidableEq, Repr

/-- The step functions of the scanner, by name. -/
inductive Step where
  | stateBeginValueOrEmpty
  | stateBeginValue
  | stateBeginStringOrEmpty
  | stateBeginString
  | stateEndValue
  | stateEndTop
  | stateInString
  | stateInStringEsc
  | stateInStringEscU
  | stateInStringEscU1
  | stateInStringEscU12
  | stateInStringEscU123
  | stateNeg
  | state1
  | state0
  | stateDot
  | stateDot0
  | stateE
  | stateESign
  | stateE0
  | stateT
  | stateTr
  | stateTru
  | stateF
  | stateFa
  | stateFal
  | stateFals
  | stateN
  | stateNu
  | stateNul
deriving DecidableEq, Repr

/-- The scanner of `scanner.go`: the next step function, whether the top-level
value has ended, and the stack of what the scanner is inside of, innermost first.
Its error is the `Except.error` of a step: once set, it is what `checkValid`
returns. -/
structure scanner where
  step : Step
  endTop : Bool
  parseState : List ParseState
deriving DecidableEq, Repr

/-- The nesting depth past which the scanner gives up (`maxNestingDepth`). -/
def maxNestingDepth : Nat := 10000

/-- The function `isSpace` of `scanner.go`. -/
def isSpaceByte (c : Nat) : Bool := c ≤ 32 && (c == 32 || c == 9 || c == 13 || c == 10)

/-- The method `scanner.error`: the syntax error for byte `c` in `context`. -/
def scanner.error (c : Nat) (context : String) : Except String scanner :=
  Except.error ("invalid character " ++ quoteChar c ++ " " ++ context)

/-- The method `scanner.pushParseState`. -/
def scanner.pushParseState (s : scanner) (c : Nat) (newParseState : ParseState) :
    Except String scanner :=
  if s.parseState.length + 1 ≤ maxNestingDepth then
    Except.ok { s with parseState := newParseState :: s.parseState }
  else scanner.error c "exceeded max depth"

/-- The method `scanner.popParseState`. -/
def scanner.popParseState (s : scanner) : scanner :=
  match s.parseState.tail with
  | [] => { s with parseState := [], step := Step.stateEndTop, endTop := true }
  | rest => { s with parseState := rest, step := Step.stateEndValue }

/-- The step `stateEndTop`: only space may follow the top-level value. -/
def stateEndTop (s : scanner) (c : Nat) : Except String scanner :=
  if isSpaceByte c then Except.ok s else scanner.error c "after top-level value"

/-- The step `stateEndValue`: after a value, a separator or a closing bracket. -/
def stateEndValue (s : scanner) (c : Nat) : Except String scanner :=
  match s.parseState with
  | [] => stateEndTop { s with step := Step.stateEndTop, endTop := true } c
  | ps :: rest =>
    if isSpaceByte c then Except.ok { s with step := Step.stateEndValue }
    else
      match ps with
      | ParseState.parseObjectKey =>
        if c = 58 then
          Except.ok { s with parseState := ParseState.parseObjectValue :: rest,
                             step := Step.stateBeginValue }
        else scanner.error c "after object key"
      | ParseState.parseObjectValue =>
        if c = 44 then
          Except.ok { s with parseState := ParseState.parseObjectKey :: rest,
                             step := Step.stateBeginString }
        else if c = 125 then Except.ok s.popParseState
        else scanner.error c "after object key:value pair"
      | ParseState.parseArrayValue =>
        if c = 44 then Except.ok { s with step := Step.stateBeginValue }
        else if c = 93 then Except.ok s.popParseState
        else scanner.error c "after array element"

/-- The step `stateBeginValue`. -/
def stateBeginValue (s : scanner) (c : Nat) : Except String scanner :=
  if isSpaceByte c then Except.ok s
  else if c = 123 then
    scanner.pushParseState { s with step := Step.stateBeginStringOrEmpty } c
      ParseState.parseObjectKey
  else if c = 91 then
    scanner.pushParseState { s with step := Step.stateBeginValueOrEmpty } c
      ParseState.parseArrayValue
  else if c = 34 then Except.ok { s with step := Step.stateInString }
  else if c = 45 then Except.ok { s with step := Step.stateNeg }
  else if c = 48 then Except.ok { s with step := Step.state0 }
  else if c = 116 then Except.ok { s with step := Step.stateT }
  else if c = 102 then Except.ok { s with step := Step.stateF }
  else if c = 110 then Except.ok { s with step := Step.stateN }
  else if 49 ≤ c ∧ c ≤ 57 then Except.ok { s with step := Step.state1 }
  else scanner.error c "looking for beginning of value"

/-- The step `stateBeginString`. -/
def stateBeginString (s : scanner) (c : Nat) : Except String scanner :=
  if isSpaceByte c then Except.ok s
  else if c = 34 then Except.ok { s with step := Step.stateInString }
  else scanner.error c "looking for beginning of object key string"

/-- Is the byte a hexadecimal digit? -/
def isHexByte (c : Nat) : Bool :=
  (48 ≤ c && c ≤ 57) || (97 ≤ c && c ≤ 102) || (65 ≤ c && c ≤ 70)

/-- The step `state0`: after a leading zero, and the tail of `state1`. -/
def state0 (s : scanner) (c : Nat) : Except String scanner :=
  if c = 46 then Except.ok { s with step := Step.stateDot }
  else if c = 101 ∨ c = 69 then Except.ok { s with step := Step.stateE }
  else stateEndValue s c

/-- The step `stateESign`: after the sign of an exponent, and the tail of
`stateE`. -/
def stateESign (s : scanner) (c : Nat) : Except String scanner :=
  if 48 ≤ c ∧ c ≤ 57 then Except.ok { s with step := Step.stateE0 }
  else scanner.error c "in exponent of numeric literal"

/-- One letter of a literal: `want` leads to step `next`. -/
def stateLiteral (s : scanner) (c want : Nat) (next : Step) (context : String) :
    Except String scanner :=
  if c = want then Except.ok { s with step := next } else scanner.error c context

/-- Run the current step function on byte `c`. -/
def scanner.doStep (s : scanner) (c : Nat) : Except String scanner :=
  match s.step with
  | Step.stateBeginValueOrEmpty =>
    if isSpaceByte c then Except.ok s
    else if c = 93 then stateEndValue s c
    else stateBeginValue s c
  | Step.stateBeginValue => stateBeginValue s c
  | Step.stateBeginStringOrEmpty =>
    if isSpaceByte c then Except.ok s
    else if c = 125 then
      stateEndValue { s with parseState := ParseState.parseObjectValue :: s.parseState.tail } c
    else stateBeginString s c
  | Step.stateBeginString => stateBeginString s c
  | Step.stateEndValue => stateEndValue s c
  | Step.stateEndTop => stateEndTop s c
  | Step.stateInString =>
    if c = 34 then Except.ok { s with step := Step.stateEndValue }
    else if c = 92 then Except.ok { s with step := Step.stateInStringEsc }
    else if c < 0x20 then scanner.error c "in string literal"
    else Except.ok s
  | Step.stateInStringEsc =>
    if c = 98 ∨ c = 102 ∨ c = 110 ∨ c = 114 ∨ c = 116 ∨ c = 92 ∨ c = 47 ∨ c = 34 then
      Except.ok { s with step := Step.stateInString }
    else if c = 117 then Except.ok { s with step := Step.stateInStringEscU }
    else scanner.error c "in string escape code"
  | Step.stateInStringEscU =>
    if isHexByte c then Except.ok { s with step := Step.stateInStringEscU1 }
    else scanner.error c "in \\u hexadecimal character escape"
  | Step.stateInStringEscU1 =>
    if isHexByte c then Except.ok { s with step := Step.stateInStringEscU12 }
    else scanner.error c "in \\u hexadecimal character escape"
  | Step.stateInStringEscU12 =>
    if isHexByte c then Except.ok { s with step := Step.stateInStringEscU123 }
    else scanner.error c "in \\u hexadecimal character escape"
  | Step.stateInStringEscU123 =>
    if isHexByte c then Except.ok { s with step := Step.stateInString }
    else scanner.error c "in \\u hexadecimal character escape"
  | Step.stateNeg =>
    if c = 48 then Except.ok { s with step := Step.state0 }
    else if 49 ≤ c ∧ c ≤ 57 then Except.ok { s with step := Step.state1 }
    else scanner.error c "in numeric literal"
  | Step.state1 =>
    if 48 ≤ c ∧ c ≤ 57 then Except.ok { s with step := Step.state1 } else state0 s c
  | Step.state0 => state0 s c
  | Step.stateDot =>
    if 48 ≤ c ∧ c ≤ 57 then Except.ok { s with step := Step.stateDot0 }
    else scanner.error c "after decimal point in numeric literal"
  | Step.stateDot0 =>
    if 48 ≤ c ∧ c ≤ 57 then Except.ok s
    else if c = 101 ∨ c = 69 then Except.ok { s with step := Step.stateE }
    else stateEndValue s c
  | Step.stateE =>
    if c = 43 ∨ c = 45 then Except.ok { s with step := Step.stateESign } else stateESign s c
  | Step.stateESign => stateESign s c
  | Step.stateE0 => if 48 ≤ c ∧ c ≤ 57 then Except.ok s else stateEndValue s c
  | Step.stateT => stateLiteral s c 114 Step.stateTr "in literal true (expecting \x27r\x27)"
  | Step.stateTr => stateLiteral s c 117 Step.stateTru "in literal true (expecting \x27u\x27)"
  | Step.stateTru =>
    stateLiteral s c 101 Step.stateEndValue "in literal true (expecting \x27e\x27)"
  | Step.stateF => stateLiteral s c 97 Step.stateFa "in literal false (expecting \x27a\x27)"
  | Step.stateFa => stateLiteral s c 108 Step.stateFal "in literal false (expecting \x27l\x27)"
  | Step.stateFal =>
    stateLiteral s c 115 Step.stateFals "in literal false (expecting \x27s\x27)"
  | Step.stateFals =>
    stateLiteral s c 101 Step.stateEndValue "in literal false (expecting \x27e\x27)"
  | Step.stateN => stateLiteral s c 117 Step.stateNu "in literal null (expecting \x27u\x27)"
  | Step.stateNu => stateLiteral s c 108 Step.stateNul "in literal null (expecting \x27l\x27)"
  | Step.stateNul =>
    stateLiteral s c 108 Step.stateEndValue "in literal null (expecting \x27l\x27)"

/-- The loop of `checkValid`: step through the bytes up to the first error. -/
def scanner.run : scanner → List Nat → Except String scanner
  | s, [] => Except.ok s
  | s, c :: cs =>
    match s.doStep c with
    | Except.ok s2 => scanner.run s2 cs
    | Except.error e => Except.error e

/-- The method `scanner.eof`: the error of a text that ends here, if any. -/
def scanner.eof (s : scanner) : Option String :=
  if s.endTop then none
  else
    match s.doStep 32 with
    | Except.error e => some e
    | Except.ok s2 => if s2.endTop then none else some "unexpected end of JSON input"

/-- The function `checkValid`: the syntax error of `data`, `none` for a JSON text. -/
def checkValid (data : List Nat) : Option String :=
  match scanner.run ⟨Step.stateBeginValue, false, []⟩ data with
  | Except.error e => some e
  | Except.ok s => s.eof

/-! ### The values of a JSON text -/

inductive JValue where
  | null
  | bool (b : Bool)
  | number (raw : String)
  | string (raw : String) (val : String)
  | array (elems : List JValue)
  | object (members : List (String × JValue))

/-- JSON white space. -/
def isSpace (c : Char) : Bool := c == ' ' || c == '\t' || c == '\r' || c == '\n'

/-- Drop leading white space. -/
def skipSpace : List Char → List Char
  | [] => []
  | c :: cs => if isSpace c then skipSpace cs else c :: cs

/-- The value of a hexadecimal digit. -/
def hexVal (c : Char) : Option Nat :=
  let n := c.toNat
  if 48 ≤ n ∧ n ≤ 57 then some (n - 48)
  else if 97 ≤ n ∧ n ≤ 102 then some (n - 87)
  else if 65 ≤ n ∧ n ≤ 70 then some (n - 55)
  else none

/-- The function `getu4` past the two characters of the escape: four hexadecimal
digits. -/
def hex4 : List Char → Option (Nat × List Char)
  | a :: b :: c :: d :: rest =>
    match hexVal a, hexVal b, hexVal c, hexVal d with
    | some a, some b, some c, some d => some (((a * 16 + b) * 16 + c) * 16 + d, rest)
    | _, _, _, _ => none
  | _ => none

/-- The character a one-letter escape stands for. -/
def unescape (e : Char) : Option Char :=
  if e = '"' then some '"'
  else if e = '\\' then some '\\'
  else if e = '/' then some '/'
  else if e = 'b' then some (Char.ofNat 8)
  else if e = 'f' then some (Char.ofNat 12)
  else if e = 'n' then some '\n'
  else if e = 'r' then some '\r'
  else if e = 't' then some '\t'
  else none

/-- Scan a string literal from just after its opening quote: the unquoted value
(in reverse in `val`) and the text after the closing quote. -/
def scanString : Nat → List Char → List Char → Option (String × List Char)
  | 0, _, _ => none
  | fuel + 1, cs, val =>
    match cs with
    | [] => none
    | c :: rest =>
      if c = '"' then some (String.mk val.reverse, rest)
      else if c = '\\' then
        match rest with
        | [] => none
        | e :: rest2 =>
          if e = 'u' then
            match hex4 rest2 with
            | none => none
            | some (u, rest3) =>
              if 0xD800 ≤ u ∧ u < 0xE000 then
                -- a surrogate: a valid pair is one character, anything else U+FFFD
                match rest3 with
                | '\\' :: 'u' :: rest4 =>
                  match hex4 rest4 with
                  | some (u2, rest5) =>
                    if u < 0xDC00 ∧ 0xDC00 ≤ u2 ∧ u2 < 0xE000 then
                      scanString fuel rest5
                        (Char.ofNat ((u - 0xD800) * 1024 + (u2 - 0xDC00) + 0x10000) :: val)
                    else scanString fuel rest3 (Char.ofNat 0xFFFD :: val)
                  | none => scanString fuel rest3 (Char.ofNat 0xFFFD :: val)
                | _ => scanString fuel rest3 (Char.ofNat 0xFFFD :: val)
              else scanString fuel rest3 (Char.ofNat u :: val)
          else
            match unescape e with
            | some v => scanString fuel rest2 (v :: val)
            | none => none
      else if c.toNat < 32 then none
      else scanString fuel rest (c :: val)

/-- Split off the leading decimal digits. -/
def spanDigits : List Char → List Char × List Char
  | [] => ([], [])
  | c :: cs =>
    if c.isDigit then ((spanDigits cs).1.cons c, (spanDigits cs).2) else ([], c :: cs)

/-- Scan a number literal: the text left after it, when there is one. -/
def scanNumber (cs : List Char) : Option (List Char) :=
  let cs := match cs with
    | '-' :: r => r
    | r => r
  let afterInt : Option (List Char) :=
    match cs with
    | '0' :: r => some r
    | c :: r => if c.isDigit then some (spanDigits r).2 else none
    | [] => none
  let afterFrac : Option (List Char) :=
    match afterInt with
    | some ('.' :: r) => if (spanDigits r).1 = [] then none else some (spanDigits r).2
    | other => other
  match afterFrac with
  | some (e :: r) =>
    if e = 'e' ∨ e = 'E' then
      let r := match r with
        | '+' :: r2 => r2
        | '-' :: r2 => r2
        | r2 => r2
      if (spanDigits r).1 = [] then none else some (spanDigits r).2
    else some (e :: r)
  | other => other

/-- Strip the literal `lit` from the front of the text. -/
def stripLit : List Char → List Char → Option (List Char)
  | [], cs => some cs
  | _ :: _, [] => none
  | l :: ls, c :: cs => if l = c then stripLit ls cs else none

/-- The elements of a non-empty array, from the first element to the closing
bracket; `pv` parses one value. -/
def parseElems (pv : List Char → Option (JValue × List Char)) :
    Nat → List Char → Option (List JValue × List Char)
  | 0, _ => none
  | fuel + 1, cs =>
    match pv cs with
    | none => none
    | some (v, r) =>
      match skipSpace r with
      | ',' :: r2 =>
        match parseElems pv fuel (skipSpace r2) with
        | some (vs, r3) => some (v :: vs, r3)
        | none => none
      | ']' :: r2 => some ([v], r2)
      | _ => none

/-- The members of a non-empty object, from the first key to the closing brace;
`pv` parses one value. -/
def parseMembers (pv : List Char → Option (JValue × List Char)) :
    Nat → List Char → Option (List (String × JValue) × List Char)
  | 0, _ => none
  | fuel + 1, cs =>
    match cs with
    | '"' :: r =>
      match scanString r.length r [] with
      | none => none
      | some (key, r1) =>
        match skipSpace r1 with
        | ':' :: r2 =>
          match pv (skipSpace r2) with
          | none => none
          | some (v, r3) =>
            match skipSpace r3 with
            | ',' :: r4 =>
              match parseMembers pv fuel (skipSpace r4) with
              | some (ms, r5) => some ((key, v) :: ms, r5)
              | none => none
            | '\x7d' :: r4 => some ([(key, v)], r4)
            | _ => none
        | _ => none
    | _ => none

/-- Parse one JSON value at the head of the text, `depth` containers deep. -/
def parseValue : Nat → Nat → List Char → Option (JValue × List Char)
  | 0, _, _ => none
  | fuel + 1, depth, cs =>
    match cs with
    | [] => none
    | c :: rest =>
      if c = '\x7b' then
        if maxNestingDepth ≤ depth then none
        else
          match skipSpace rest with
          | '\x7d' :: r => some (JValue.object [], r)
          | r =>
            match parseMembers (parseValue fuel (depth + 1)) r.length r with
            | some (ms, r2) => some (JValue.object ms, r2)
            | none => none
      else if c = '[' then
        if maxNestingDepth ≤ depth then none
        else
          match skipSpace rest with
          | ']' :: r => some (JValue.array [], r)
          | r =>
            match parseElems (parseValue fuel (depth + 1)) r.length r with
            | some (vs, r2) => some (JValue.array vs, r2)
            | none => none
      else if c = '"' then
        match scanString rest.length rest [] with
        | some (val, r) =>
          some (JValue.string (String.mk (rest.take (rest.length - r.length - 1))) val, r)
        | none => none
      else if c = 't' then (stripLit "rue".data rest).map fun r => (JValue.bool true, r)
      else if c = 'f' then (stripLit "alse".data rest).map fun r => (JValue.bool false, r)
      else if c = 'n' then (stripLit "ull".data rest).map fun r => (JValue.null, r)
      else if c = '-' ∨ c.isDigit then
        match scanNumber cs with
        | some r => some (JValue.number (String.mk (cs.take (cs.length - r.length))), r)
        | none => none
      else none

/-- The function `checkValid` together with the parse: the value a whole JSON
text denotes, `none` when the text is not JSON. -/
def parseJSON (data : String) : Option JValue :=
  let cs := skipSpace data.data
  match parseValue (cs.length + 1) 0 cs with
  | some (v, r) => if skipSpace r = [] then some v else none
  | none => none

/-! ### `Time.UnmarshalJSON` -/

/-- The function `isLeap` of package `time`. -/
def isLeap (year : Nat) : Bool := year % 4 == 0 && (year % 100 != 0 || year % 400 == 0)

/-- The function `daysIn` of package `time`: the days of month `m` in `year`. -/
def daysIn (m year : Nat) : Nat :=
  if m = 2 then (if isLeap year then 29 else 28) else 30 + (m + m / 8) % 2

/-- The function `isDigit(s, i)` of package `time`. -/
def isDigitAt (s : List Nat) (i : Nat) : Bool :=
  match s.get? i with
  | some c => 48 ≤ c && c ≤ 57
  | none => false

/-- The decimal value of a run of digits. -/
def digitsValue (s : List Nat) : Nat := s.foldl (fun x c => x * 10 + (c - 48)) 0

/-- The closure `parseUint` of `parseRFC3339`: `s` as an unsigned decimal within
`[min, max]`; `none` stands for `ok = false`. -/
def parseUint (s : List Nat) (min max : Nat) : Option Nat :=
  if s.all (fun c => 48 ≤ c && c ≤ 57) then
    if digitsValue s < min ∨ max < digitsValue s then none else some (digitsValue s)
  else none

/-- The function `parseNanoseconds`: `value` is the separator and the digits after
it; at most nine digits count, scaled to nanoseconds. -/
def parseNanoseconds (value : List Nat) : Nat :=
  digitsValue ((value.take 10).drop 1) * 10 ^ (10 - (value.take 10).length)

/-- The number of bytes of the fractional second at the head of `s` (separator
included) when `sep` holds of its first byte and a digit follows, else zero. -/
def fractionLength (sep : Nat → Bool) (s : List Nat) : Nat :=
  match s with
  | c :: rest =>
    if sep c && isDigitAt rest 0 then 1 + (rest.takeWhile (fun d => 48 ≤ d && d ≤ 57)).length
    else 0
  | [] => 0

/-- The function `parseRFC3339` of package `time`: the time a strict RFC 3339
timestamp denotes, `none` (`ok = false`) when the text is not one. -/
def parseRFC3339 (s : List Nat) : Option Time :=
  if s.length < 19 then none
  else
    match parseUint (s.take 4) 0 9999, parseUint ((s.drop 5).take 2) 1 12 with
    | some year, some month =>
      match parseUint ((s.drop 8).take 2) 1 (daysIn month year),
          parseUint ((s.drop 11).take 2) 0 23, parseUint ((s.drop 14).take 2) 0 59,
          parseUint ((s.drop 17).take 2) 0 59 with
      | some day, some hour, some min, some sec =>
        if s.get? 4 = some 45 ∧ s.get? 7 = some 45 ∧ s.get? 10 = some 84
            ∧ s.get? 13 = some 58 ∧ s.get? 16 = some 58 then
          let s := s.drop 19
          -- the fractional second
          let n := fractionLength (fun c => c == 46) s
          let nsec := if n = 0 then 0 else parseNanoseconds (s.take n)
          let s := s.drop n
          -- the time zone
          if s = [90] then some ⟨year, month, day, hour, min, sec, nsec, 0⟩
          else if s.length ≠ 6 then none
          else
            match parseUint ((s.drop 1).take 2) 0 23, parseUint ((s.drop 4).take 2) 0 59 with
            | some hr, some mm =>
              if (s.head? = some 45 ∨ s.head? = some 43) ∧ s.get? 3 = some 58 then
                let zoneOffset : Int := (hr * 60 + mm) * 60
                some ⟨year, month, day, hour, min, sec, nsec,
                  if s.head? = some 45 then -zoneOffset else zoneOffset⟩
              else none
            | _, _ => none
        else none
      | _, _, _, _ => none
    | _, _ => none

/-- The function `quote` of package `time`: the text between double quotes, a
quote or backslash escaped and every byte outside printable ASCII as `\xNN`. -/
def quoteBytes (s : List Nat) : String :=
  let body := s.foldr (fun c acc =>
    if 0x80 ≤ c ∨ c < 0x20 then '\\' :: 'x' :: hexDigit (c / 16) :: hexDigit (c % 16) :: acc
    else if c = 34 ∨ c = 92 then '\\' :: Char.ofNat c :: acc
    else Char.ofNat c :: acc) ['"']
  String.mk ('"' :: body)

/-- The layout `time.RFC3339`. -/
def RFC3339 : String := "2006-01-02T15:04:05Z07:00"

/-- The message of a `ParseError` without `Message`: element `valueElem` of `value`
does not parse as element `layoutElem` of the layout. -/
def parseErrorElem (value valueElem : List Nat) (layoutElem : String) : String :=
  "parsing time " ++ quoteBytes value ++ " as " ++ quoteBytes (utf8 RFC3339.data)
    ++ ": cannot parse " ++ quoteBytes valueElem ++ " as " ++ quoteBytes (utf8 layoutElem.data)

/-- The message of a `ParseError` with `Message`. -/
def parseErrorMessage (value : List Nat) (message : String) : String :=
  "parsing time " ++ quoteBytes value ++ message

/-- The function `getnum` of package `time`: a number of one or two digits, of two
when `fixed`, and the text after it; `none` stands for `errBad`. -/
def getnum (s : List Nat) (fixed : Bool) : Option (Nat × List Nat) :=
  if !isDigitAt s 0 then none
  else if !isDigitAt s 1 then
    if fixed then none else some (digitsValue (s.take 1), s.drop 1)
  else some (digitsValue (s.take 2), s.drop 2)

/-- The function `skip` of package `time` for a one-byte prefix `p`: the text after
`p`, `none` (`errBad`) when the text does not start with it. -/
def skipByte (value : List Nat) (p : Nat) : Option (List Nat) :=
  match value with
  | c :: rest => if c = p then some rest else none
  | [] => none

/-- The zone chunk `Z07:00` of `time.Parse`: `Z`, or a sign and `hh:mm` with
`hh <= 24` and `mm <= 60`; the offset in seconds and the text left. -/
def parseZone (avalue value : List Nat) : Except String (Int × List Nat) :=
  if value.head? = some 90 then Except.ok (0, value.drop 1)
  else if value.length < 6 then Except.error (parseErrorElem avalue value "Z07:00")
  else if value.get? 3 ≠ some 58 then Except.error (parseErrorElem avalue value "Z07:00")
  else
    let hr := getnum ((value.drop 1).take 2) true
    let mm := if hr.isSome then getnum ((value.drop 4).take 2) true else none
    let hrv := (hr.map Prod.fst).getD 0
    let mmv := (mm.map Prod.fst).getD 0
    if 60 < mmv then
      Except.error (parseErrorMessage avalue ": time zone offset minute out of range")
    else if 24 < hrv then
      Except.error (parseErrorMessage avalue ": time zone offset hour out of range")
    else if hr.isNone ∨ mm.isNone ∨ ¬ (value.head? = some 43 ∨ value.head? = some 45) then
      Except.error (parseErrorElem avalue value "Z07:00")
    else
      let zoneOffset : Int := (hrv * 60 + mmv) * 60
      Except.ok (if value.head? = some 45 then -zoneOffset else zoneOffset, value.drop 6)

/-- The function `time.Parse(time.RFC3339, value)`: the chunks of the layout in
turn (year, month, day, hour, minute, second with an optional fraction, zone), then
the check that nothing is left and that the day exists. -/
def timeParse (avalue : List Nat) : Except String Time :=
  -- "2006"
  if avalue.length < 4 ∨ !isDigitAt avalue 0 ∨ !(avalue.take 4).all (fun c => 48 ≤ c && c ≤ 57)
  then Except.error (parseErrorElem avalue avalue "2006")
  else
    let year := digitsValue (avalue.take 4)
    let v := avalue.drop 4
    -- "-01"
    match skipByte v 45 with
    | none => Except.error (parseErrorElem avalue v "-")
    | some v =>
    match getnum v true with
    | none => Except.error (parseErrorElem avalue v "01")
    | some (month, v1) =>
    if month = 0 ∨ 12 < month then
      Except.error (parseErrorMessage avalue ": month out of range")
    else
    -- "-02"
    match skipByte v1 45 with
    | none => Except.error (parseErrorElem avalue v1 "-")
    | some v =>
    match getnum v true with
    | none => Except.error (parseErrorElem avalue v "02")
    | some (day, v1) =>
    -- "T15"
    match skipByte v1 84 with
    | none => Except.error (parseErrorElem avalue v1 "T")
    | some v =>
    match getnum v false with
    | none => Except.error (parseErrorElem avalue v "15")
    | some (hour, v1) =>
    if 24 ≤ hour then Except.error (parseErrorMessage avalue ": hour out of range")
    else
    -- ":04"
    match skipByte v1 58 with
    | none => Except.error (parseErrorElem avalue v1 ":")
    | some v =>
    match getnum v true with
    | none => Except.error (parseErrorElem avalue v "04")
    | some (min, v1) =>
    if 60 ≤ min then Except.error (parseErrorMessage avalue ": minute out of range")
    else
    -- ":05" and a fractional second the layout does not name
    match skipByte v1 58 with
    | none => Except.error (parseErrorElem avalue v1 ":")
    | some v =>
    match getnum v true with
    | none => Except.error (parseErrorElem avalue v "05")
    | some (sec, v1) =>
    if 60 ≤ sec then Except.error (parseErrorMessage avalue ": second out of range")
    else
    let n := fractionLength (fun c => c == 46 || c == 44) v1
    let nsec := if n = 0 then 0 else parseNanoseconds (v1.take n)
    let v := v1.drop n
    -- "Z07:00"
    match parseZone avalue v with
    | Except.error e => Except.error e
    | Except.ok (offset, v1) =>
    if v1 ≠ [] then
      Except.error (parseErrorMessage avalue (": extra text: " ++ quoteBytes v1))
    else if day < 1 ∨ daysIn month year < day then
      Except.error (parseErrorMessage avalue ": day out of range")
    else Except.ok ⟨year, month, day, hour, min, sec, nsec, offset⟩

/-- The function `parseStrictRFC3339` of package `time`: the strict parser, and
`time.Parse` with the layout `RFC3339` on what the strict parser refuses (the
further checks that follow in the source are switched off there). -/
def parseStrictRFC3339 (b : List Nat) : Except String Time :=
  match parseRFC3339 b with
  | some t => Except.ok t
  | none => timeParse b

/-! ### The decoder -/

/-- The fields of `Response`, in declaration order. -/
inductive Field where
  | Success
  | ChallengeTs
  | Hostname
  | ErrorCodes
deriving DecidableEq, Repr

/-- The JSON name in the field's tag. -/
def Field.name : Field → String
  | Field.Success => "success"
  | Field.ChallengeTs => "challenge_ts"
  | Field.Hostname => "hostname"
  | Field.ErrorCodes => "error-codes"

/-- The Go type of the field. -/
def Field.goType : Field → String
  | Field.Success => "bool"
  | Field.ChallengeTs => "time.Time"
  | Field.Hostname => "string"
  | Field.ErrorCodes => "[]string"

/-- The function `foldRune` on what can meet an ASCII letter: the letter in upper
case, also for the long s and the Kelvin sign. -/
def foldRune (c : Char) : Char :=
  if 97 ≤ c.toNat ∧ c.toNat ≤ 122 then Char.ofNat (c.toNat - 32)
  else if c.toNat = 0x17F then 'S'
  else if c.toNat = 0x212A then 'K'
  else c

/-- The function `foldName`: the name with every character folded. -/
def foldName (s : String) : List Char := s.data.map foldRune

/-- The field a key of the JSON object is stored in: the one with that very name,
or else the one whose name is the key up to case. -/
def findField (key : String) : Option Field :=
  let fields := [Field.Success, Field.ChallengeTs, Field.Hostname, Field.ErrorCodes]
  match fields.find? (fun f => f.name == key) with
  | some f => some f
  | none => fields.find? (fun f => foldName f.name == foldName key)

/-- The `Value` of an `UnmarshalTypeError` for a JSON value. -/
def JValue.kind : JValue → String
  | JValue.null => "null"
  | JValue.bool _ => "bool"
  | JValue.number _ => "number"
  | JValue.string _ _ => "string"
  | JValue.array _ => "array"
  | JValue.object _ => "object"

/-- The message of the `UnmarshalTypeError` for value `v` met in field `f` where
Go type `ty` is expected. -/
def typeError (v : JValue) (f : Field) (ty : String) : String :=
  "json: cannot unmarshal " ++ v.kind ++ " into Go struct field Response." ++ f.name
    ++ " of type " ++ ty

/-- The state of a decode: the value behind the pointer, the elements of the array
under `ErrorCodes` past its length (what an earlier, longer array of the same text
left there), and the first type error met so far (`decodeState.savedError`). -/
structure decodeState where
  resp : Response
  spare : List String
  savedError : Option String

/-- The method `decodeState.saveError`: keep the first error. -/
def decodeState.saveError (d : decodeState) (err : String) : decodeState :=
  match d.savedError with
  | none => { d with savedError := some err }
  | some _ => d

/-- Decode the elements of an array into the elements `old` of a `[]string` (the
empty string past the end of `old`): a string gives its value; a null, and
anything else with a type error, leaves the element as it is. -/
def decodeStrings : List JValue → List String → List String × Option String
  | [], _ => ([], none)
  | v :: vs, old =>
    match v with
    | JValue.string _ val => (val :: (decodeStrings vs old.tail).1, (decodeStrings vs old.tail).2)
    | JValue.null =>
      (old.head?.getD "" :: (decodeStrings vs old.tail).1, (decodeStrings vs old.tail).2)
    | other =>
      (old.head?.getD "" :: (decodeStrings vs old.tail).1,
        some (typeError other Field.ErrorCodes "string"))

/-- Decode value `v` into field `f`: the state after it and the error that ends
the decode, if any.  A type error is saved and the decode goes on; the error of
`Time.UnmarshalJSON` ends it, with the zero time stored when the text is a string
that is not a timestamp. -/
def decodeField (f : Field) (v : JValue) (d : decodeState) : decodeState × Option String :=
  match f, v with
  | Field.Success, JValue.bool b => ({ d with resp := { d.resp with Success := b } }, none)
  | Field.Success, JValue.null => (d, none)
  | Field.Success, other => (d.saveError (typeError other f f.goType), none)
  | Field.Hostname, JValue.string _ val =>
    ({ d with resp := { d.resp with Hostname := val } }, none)
  | Field.Hostname, JValue.null => (d, none)
  | Field.Hostname, other => (d.saveError (typeError other f f.goType), none)
  | Field.ErrorCodes, JValue.array [] =>
    ({ d with resp := { d.resp with ErrorCodes := some [] }, spare := [] }, none)
  | Field.ErrorCodes, JValue.array elems =>
    let old := d.resp.ErrorCodes.getD [] ++ d.spare
    let d2 := { d with resp := { d.resp with ErrorCodes := some (decodeStrings elems old).1 },
                       spare := old.drop elems.length }
    match (decodeStrings elems old).2 with
    | some e => (d2.saveError e, none)
    | none => (d2, none)
  | Field.ErrorCodes, JValue.null =>
    ({ d with resp := { d.resp with ErrorCodes := none }, spare := [] }, none)
  | Field.ErrorCodes, other => (d.saveError (typeError other f f.goType), none)
  | Field.ChallengeTs, JValue.null => (d, none)
  | Field.ChallengeTs, JValue.string raw _ =>
    match parseStrictRFC3339 (utf8 raw.data) with
    | Except.ok t => ({ d with resp := { d.resp with ChallengeTs := t } }, none)
    | Except.error e => ({ d with resp := { d.resp with ChallengeTs := Time.zero } }, some e)
  | Field.ChallengeTs, _ => (d, some "Time.UnmarshalJSON: input is not a JSON string")

/-- The method `decodeState.object` at a `Response`: store each member whose key
names a field, skip the others, stop at an error that ends the decode. -/
def decodeObject : List (String × JValue) → decodeState → decodeState × Option String
  | [], d => (d, none)
  | (key, v) :: ms, d =>
    match findField key with
    | none => decodeObject ms d
    | some f =>
      match decodeField f v d with
      | (d2, none) => decodeObject ms d2
      | (d2, some e) => (d2, some e)

/-- The message of the panic of a decoder that finds the text other than the
scanner left it (`phasePanicMsg`). -/
def phasePanicMsg : String := "JSON decoder out of sync - data changing underfoot?"

/-- The function `json.Unmarshal(data, &resp)`: the value left in `resp` and the
error.  A text that `checkValid` refuses leaves `resp` as it was; a JSON null stores
nothing; a value of the wrong type is reported after the rest has been stored. -/
def Unmarshal (data : String) (resp : Response) : Response × Option String :=
  match checkValid (utf8 data.data) with
  | some e => (resp, some e)
  | none =>
    match parseJSON data with
    | none => (resp, some phasePanicMsg)
    | some JValue.null => (resp, none)
    | some (JValue.object ms) =>
      match decodeObject ms ⟨resp, [], none⟩ with
      | (d, some e) => (d.resp, some e)
      | (d, none) => (d.resp, d.savedError)
    | some other =>
      (resp, some ("json: cannot unmarshal " ++ other.kind
        ++ " into Go value of type recaptcha.Response"))

/-- Following the specification's words (section 6, "Expected response schema (JSON
object)", and section 4.1 step 5, "unknown fields ignored; missing fields take
default zero values"): is the value a JSON object whose `success`, if there, is a
boolean, whose `challenge_ts` is a string that reads as a timestamp, whose
`hostname` is a string and whose `error-codes` is an array of strings? -/
def matchesResponseSchema : JValue → Bool
  | JValue.object ms =>
    ms.all fun kv =>
      if kv.1 = "success" then
        (match kv.2 with
          | JValue.bool _ => true
          | _ => false)
      else if kv.1 = "challenge_ts" then
        (match kv.2 with
          | JValue.string raw _ =>
            (match parseStrictRFC3339 (utf8 raw.data) with
              | Except.ok _ => true
              | Except.error _ => false)
          | _ => false)
      else if kv.1 = "hostname" then
        (match kv.2 with
          | JValue.string _ _ => true
          | _ => false)
      else if kv.1 = "error-codes" then
        (match kv.2 with
          | JValue.array elems =>
            elems.all fun e =>
              (match e with
                | JValue.string _ _ => true
                | _ => false)
          | _ => false)
      else true
  | _ => false

/-- Following the specification's words ("valid JSON matching the expected schema"):
is the body a JSON text whose value matches the schema of the response? -/
def validResponseJSON (body : String) : Bool :=
  match checkValid (utf8 body.data), parseJSON body with
  | none, some v => matchesResponseSchema v
  | _, _ => false

/-! ## Vocabulary of the statements -/

/-- The client the call goes through (lines 66-68): the one supplied, and
`http.DefaultClient` when none is. -/
def Env.clientFor (env : Env) (c : Option Client) : Client :=
  match c with
  | none => env.DefaultClient
  | some c => c

/-- The form of lines 71-75 for receiver `re` and request `r`. -/
def postData (re : Recaptcha) (r : Request) : Values :=
  [("secret", [re.Secret]), ("response", [r.FormValue "g-recaptcha-response"]),
    ("remoteip", [(SplitHostPort r.RemoteAddr).1])]

/-- Is the event an outbound call? -/
def Event.isPostForm : Event → Bool
  | Event.PostForm _ _ _ => true
  | _ => false

/-- Is the event the release of a body? -/
def Event.isClose : Event → Bool
  | Event.Close _ => true
  | _ => false

/-- Is the event a read of a body or a decode of its bytes? -/
def Event.isReadOrDecode : Event → Bool
  | Event.ReadAll _ => true
  | Event.Unmarshal _ => true
  | _ => false

/-! ## Stubs to run the function with -/

/-- A transport stub: the client at `addr` whose `PostForm` answers `ans` to every
call. -/
def stubClient (addr : Nat) (ans : Except String HttpResponse) : Client :=
  ⟨addr, fun _ _ => ans⟩

/-- An HTTP 200 answer whose body reads in full as `data`. -/
def ok200 (data : String) : HttpResponse := ⟨200, ⟨data, none, none⟩⟩

/-- An environment whose default client cannot connect and whose decoder is the
model `Unmarshal`. -/
def stubEnv : Env := ⟨stubClient 0 (Except.error "dial tcp: no route to host"), Unmarshal⟩

/-- A request that carries a token and comes from `203.0.113.9:51324`. -/
def tokenRequest : Request := ⟨[("g-recaptcha-response", ["03AGdBq25"])], "203.0.113.9:51324"⟩

/-- The first body of the specification's examples. -/
def bodySuccess : String :=
  "\x7b\"success\":true,\"hostname\":\"example.com\"," ++
  "\"challenge_ts\":\"2024-01-01T00:00:00Z\",\"error-codes\":[]\x7d"

/-- The second body of the specification's examples. -/
def bodyFailure : String := "\x7b\"success\":false,\"error-codes\":[\"invalid-input-response\"]\x7d"

/-- A request without the token field, from the same peer. -/
def bareRequest : Request := ⟨[("other", ["x"])], "203.0.113.9:51324"⟩

/-- A request whose token field is there and empty. -/
def emptyTokenRequest : Request := ⟨[("g-recaptcha-response", [""])], "203.0.113.9:51324"⟩

/-- A request that carries a token and whose peer address has no port. -/
def portlessRequest : Request := ⟨[("g-recaptcha-response", ["03AGdBq25"])], "localhost"⟩

/-- A body that is a JSON object with one field of the wrong type after a good
one. -/
def bodyMistyped : String := "\x7b\"success\":true,\"hostname\":5\x7d"

/-- A body that is not JSON. -/
def bodyNotJSON : String := "<html>Service Unavailable</html>"

/-- The body the call opened, if it opened one: none for a nil request, for an empty
token and for a `PostForm` that fails. -/
def openedBody (env : Env) (re : Recaptcha) (r : Option Request) (c : Option Client) :
    Option Body :=
  match r with
  | none => none
  | some r =>
    if r.FormValue "g-recaptcha-response" = "" then none
    else
      match (env.clientFor c).PostForm apiURL (postData re r) with
      | Except.ok srv => some srv.Body
      | Except.error _ => none

/-! ## Theorems -/

/-- With a request that carries a token, `CheckRequest` is the outbound call
followed, when the call succeeds, by the read, the decode and the deferred
`Close`. -/
theorem CheckRequest_of_token (env : Env) (re : Recaptcha) (r : Request) (c : Option Client)
    (htok : r.FormValue "g-recaptcha-response" ≠ "") :
    CheckRequest env re (some r) c =
      match (env.clientFor c).PostForm apiURL (postData re r) with
      | Except.error e =>
        ⟨Response.zero, some ("Could not connect to Recaptcha service: " ++ e),
          [Event.FormValue "g-recaptcha-response", Event.SplitHostPort r.RemoteAddr,
            Event.PostForm (env.clientFor c).addr apiURL (postData re r)], re⟩
      | Except.ok srv =>
        let out := readAndDecode env re
          [Event.FormValue "g-recaptcha-response", Event.SplitHostPort r.RemoteAddr,
            Event.PostForm (env.clientFor c).addr apiURL (postData re r)] srv.Body
        { out with trace := out.trace ++ [Event.Close srv.Body] } := by
  cases c <;> simp [CheckRequest, htok, Env.clientFor, postData]

/-- C1: for a request with a non-empty token, a transport whose `PostForm`
succeeds, a body that reads in full and decodes to `R` without error,
`CheckRequest` returns exactly `R` and a nil error, whatever `R.Success` is. -/
theorem CheckRequest_returns_decoded (env : Env) (re : Recaptcha) (r : Request)
    (c : Option Client) (srv : HttpResponse) (R : Response)
    (htok : r.FormValue "g-recaptcha-response" ≠ "")
    (hpost : (env.clientFor c).PostForm apiURL (postData re r) = Except.ok srv)
    (hread : srv.Body.readErr = none)
    (hdec : env.Unmarshal srv.Body.data Response.zero = (R, none)) :
    (CheckRequest env re (some r) c).resp = R ∧ (CheckRequest env re (some r) c).err = none := by
  rw [CheckRequest_of_token env re r c htok, hpost]
  simp [readAndDecode, ReadAll, hread, hdec]

/-- The trace of lines 82-93: the read, and the decode when the read succeeds. -/
theorem readAndDecode_trace (env : Env) (re : Recaptcha) (tr : List Event) (b : Body) :
    (readAndDecode env re tr b).trace =
      tr ++ Event.ReadAll b :: (if b.readErr = none then [Event.Unmarshal b.data] else []) := by
  unfold readAndDecode ReadAll
  cases hr : b.readErr with
  | some e => simp
  | none =>
    cases hd : (env.Unmarshal b.data Response.zero).2 <;> simp [hd]

/-- Lines 82-93 leave the receiver as it was. -/
theorem readAndDecode_re (env : Env) (re : Recaptcha) (tr : List Event) (b : Body) :
    (readAndDecode env re tr b).re = re := by
  unfold readAndDecode ReadAll
  cases hr : b.readErr with
  | some e => simp
  | none =>
    cases hd : (env.Unmarshal b.data Response.zero).2 <;> simp [hd]

/-- C1 at the two bodies of the specification: a 200 answer with the first body
gives success, the hostname and an empty error list; one with the second body gives
a failure with its one error code; both with a nil error. -/
theorem CheckRequest_returns_decoded_witness :
    (tokenRequest.FormValue "g-recaptcha-response" ≠ ""
      ∧ (stubEnv.clientFor (some (stubClient 1 (Except.ok (ok200 bodySuccess))))).PostForm
          apiURL (postData ⟨"6LeSecret"⟩ tokenRequest) = Except.ok (ok200 bodySuccess)
      ∧ (ok200 bodySuccess).Body.readErr = none
      ∧ stubEnv.Unmarshal (ok200 bodySuccess).Body.data Response.zero =
          (⟨true, ⟨2024, 1, 1, 0, 0, 0, 0, 0⟩, "example.com", some []⟩, none))
    ∧ ((CheckRequest stubEnv ⟨"6LeSecret"⟩ (some tokenRequest)
          (some (stubClient 1 (Except.ok (ok200 bodySuccess))))).resp =
        ⟨true, ⟨2024, 1, 1, 0, 0, 0, 0, 0⟩, "example.com", some []⟩
      ∧ (CheckRequest stubEnv ⟨"6LeSecret"⟩ (some tokenRequest)
          (some (stubClient 1 (Except.ok (ok200 bodySuccess))))).err = none)
    ∧ ((CheckRequest stubEnv ⟨"6LeSecret"⟩ (some tokenRequest)
          (some (stubClient 1 (Except.ok (ok200 bodyFailure))))).resp =
        ⟨false, Time.zero, "", some ["invalid-input-response"]⟩
      ∧ (CheckRequest stubEnv ⟨"6LeSecret"⟩ (some tokenRequest)
          (some (stubClient 1 (Except.ok (ok200 bodyFailure))))).err = none) :=
  ⟨⟨by decide, rfl, rfl, by decide⟩,
    CheckRequest_returns_decoded stubEnv ⟨"6LeSecret"⟩ tokenRequest
      (some (stubClient 1 (Except.ok (ok200 bodySuccess)))) (ok200 bodySuccess) _
      (by decide) rfl rfl (by decide),
    CheckRequest_returns_decoded stubEnv ⟨"6LeSecret"⟩ tokenRequest
      (some (stubClient 1 (Except.ok (ok200 bodyFailure)))) (ok200 bodyFailure) _
      (by decide) rfl rfl (by decide)⟩

/-- C2: for a request whose `g-recaptcha-response` field is missing or empty, whatever
the secret and the client (nil or not), `CheckRequest` returns the zero `Response` and
the error "No captcha response found in request body", having looked up the form
value and nothing else: `PostForm` is not invoked. -/
theorem CheckRequest_without_token (env : Env) (re : Recaptcha) (r : Request)
    (c : Option Client) (htok : r.FormValue "g-recaptcha-response" = "") :
    CheckRequest env re (some r) c =
        ⟨⟨false, Time.zero, "", none⟩, some "No captcha response found in request body",
          [Event.FormValue "g-recaptcha-response"], re⟩
      ∧ (CheckRequest env re (some r) c).trace.filter Event.isPostForm = [] := by
  simp [CheckRequest, htok, Response.zero, Event.isPostForm]

/-- C2 at a request without the field (nil client) and at one whose field is empty
(a client that would answer). -/
theorem CheckRequest_without_token_witness :
    (bareRequest.FormValue "g-recaptcha-response" = ""
      ∧ (CheckRequest stubEnv ⟨"6LeSecret"⟩ (some bareRequest) none).err =
          some "No captcha response found in request body"
      ∧ (CheckRequest stubEnv ⟨"6LeSecret"⟩ (some bareRequest) none).trace.filter
          Event.isPostForm = [])
    ∧ (emptyTokenRequest.FormValue "g-recaptcha-response" = ""
      ∧ (CheckRequest stubEnv ⟨"6LeSecret"⟩ (some emptyTokenRequest)
          (some (stubClient 1 (Except.ok (ok200 bodySuccess))))).resp = Response.zero
      ∧ (CheckRequest stubEnv ⟨"6LeSecret"⟩ (some emptyTokenRequest)
          (some (stubClient 1 (Except.ok (ok200 bodySuccess))))).trace.filter
          Event.isPostForm = []) :=
  ⟨⟨by decide,
      by rw [(CheckRequest_without_token stubEnv ⟨"6LeSecret"⟩ bareRequest none (by decide)).1],
      (CheckRequest_without_token stubEnv ⟨"6LeSecret"⟩ bareRequest none (by decide)).2⟩,
    ⟨by decide,
      by rw [(CheckRequest_without_token stubEnv ⟨"6LeSecret"⟩ emptyTokenRequest _
        (by decide)).1]; rfl,
      (CheckRequest_without_token stubEnv ⟨"6LeSecret"⟩ emptyTokenRequest _ (by decide)).2⟩⟩

/-- C3: for a nil request, whatever the secret and the client, `CheckRequest` returns
the zero `Response` and the error "HTTP Request is nil" with an empty trace: no form
lookup, no address split and no outbound call comes first. -/
theorem CheckRequest_nil_request (env : Env) (re : Recaptcha) (c : Option Client) :
    CheckRequest env re none c =
      ⟨⟨false, Time.zero, "", none⟩, some "HTTP Request is nil", [], re⟩ := by
  rfl

/-- The text splits at the index `IndexByteString` finds. -/
theorem IndexByteString_split (c : Char) :
    ∀ (s : List Char) (i : Nat), IndexByteString s c = some i →
      s = s.take i ++ c :: s.drop (i + 1)
  | [], i, h => by simp [IndexByteString] at h
  | x :: xs, i, h => by
    unfold IndexByteString at h
    by_cases hx : x = c
    · simp [hx] at h
      subst h
      simp [hx]
    · simp only [hx, if_false, Option.map_eq_some'] at h
      obtain ⟨j, hj, rfl⟩ := h
      have ih := IndexByteString_split c xs j hj
      simp only [List.take_succ_cons, List.drop_succ_cons, List.cons_append]
      rw [← ih]

/-- The text splits at the index `LastIndexByteString` finds. -/
theorem LastIndexByteString_split (c : Char) :
    ∀ (s : List Char) (i : Nat), LastIndexByteString s c = some i →
      s = s.take i ++ c :: s.drop (i + 1)
  | [], i, h => by simp [LastIndexByteString] at h
  | x :: xs, i, h => by
    unfold LastIndexByteString at h
    cases hl : LastIndexByteString xs c with
    | some j =>
      simp only [hl, Option.some.injEq] at h
      subst h
      have ih := LastIndexByteString_split c xs j hl
      simp only [List.take_succ_cons, List.drop_succ_cons, List.cons_append]
      rw [← ih]
    | none =>
      simp only [hl] at h
      by_cases hx : x = c
      · simp [hx] at h
        subst h
        simp [hx]
      · simp [hx] at h

/-- When `net.SplitHostPort` reports an error, the host it returns is empty. -/
theorem SplitHostPort_host_of_error (a : String) (h : (SplitHostPort a).2.2 ≠ none) :
    (SplitHostPort a).1 = "" := by
  revert h
  unfold SplitHostPort
  simp only []
  repeat' split
  all_goals simp [addrErr]

/-- Dropping up to the split point leaves the separator and what follows it. -/
theorem drop_of_split (c : Char) (s : List Char) (i : Nat)
    (h : s = s.take i ++ c :: s.drop (i + 1)) : s.drop i = c :: s.drop (i + 1) := by
  have hlen : i < s.length := by
    have := congrArg List.length h
    simp only [List.length_append, List.length_take, List.length_cons, List.length_drop] at this
    omega
  have h2 := congrArg (List.drop i) h
  rw [List.drop_append_of_le_length (by simp [List.length_take]; omega)] at h2
  rw [h2]
  simp [List.drop_take]

/-- At index zero `IndexByteString` has found the head of the text. -/
theorem IndexByteString_zero (c : Char) (s : List Char) (h : IndexByteString s c = some 0) :
    s.head? = some c := by
  cases s with
  | nil => simp [IndexByteString] at h
  | cons x xs =>
    unfold IndexByteString at h
    by_cases hx : x = c
    · simp [hx]
    · simp [hx] at h

/-- A non-empty initial segment starts with the head of the text. -/
theorem take_eq_head_cons (c : Char) (s : List Char) (e : Nat) (hs : s.head? = some c)
    (he : 0 < e) : s.take e = c :: (s.take e).drop 1 := by
  cases s with
  | nil => simp at hs
  | cons x xs =>
    cases e with
    | zero => omega
    | succ j =>
      simp only [List.head?_cons, Option.some.injEq] at hs
      simp [hs]

/-- When `net.SplitHostPort` reports no error, the address is `host:port` or
`[host]:port` for the host and port it returns. -/
theorem SplitHostPort_shape (a : String) (h : (SplitHostPort a).2.2 = none) :
    a = (SplitHostPort a).1 ++ ":" ++ (SplitHostPort a).2.1
      ∨ a = "[" ++ (SplitHostPort a).1 ++ "]:" ++ (SplitHostPort a).2.1 := by
  unfold SplitHostPort at h ⊢
  simp only [] at h ⊢
  cases hl : LastIndexByteString a.data ':' with
  | none => simp [hl, addrErr] at h
  | some i =>
    simp only [hl] at h ⊢
    have hsplit := LastIndexByteString_split ':' a.data i hl
    by_cases hb : a.data.head? = some '['
    · simp only [hb, if_true] at h ⊢
      cases he : IndexByteString a.data ']' with
      | none => simp [he, addrErr] at h
      | some e =>
        simp only [he] at h ⊢
        by_cases h1 : e + 1 = a.data.length
        · rw [if_pos h1] at h
          simp [addrErr] at h
        · rw [if_neg h1] at h ⊢
          by_cases h2 : e + 1 = i
          · subst h2
            rw [if_pos rfl] at h ⊢
            by_cases h3 : (IndexByteString (a.data.drop 1) '[').isSome
            · rw [if_pos h3] at h
              simp [addrErr] at h
            · rw [if_neg h3] at h ⊢
              by_cases h4 : (IndexByteString (a.data.drop (e + 1)) ']').isSome
              · rw [if_pos h4] at h
                simp [addrErr] at h
              · rw [if_neg h4] at h ⊢
                right
                have hsq := IndexByteString_split ']' a.data e he
                have hd := drop_of_split ':' a.data (e + 1) hsplit
                have hpos : 0 < e := by
                  rcases Nat.eq_zero_or_pos e with h0 | h0
                  · rw [h0] at he
                    have := IndexByteString_zero ']' a.data he
                    rw [hb] at this
                    exact absurd this (by decide)
                  · exact h0
                have ht := take_eq_head_cons '[' a.data e hb hpos
                apply String.ext
                show a.data = (('[' :: List.drop 1 (List.take e a.data)) ++ [']', ':'])
                  ++ List.drop (e + 1 + 1) a.data
                rw [← ht]
                rw [hd] at hsq
                simpa using hsq
          · rw [if_neg h2] at h
            split at h <;> simp [addrErr] at h
    · simp only [hb, if_false] at h ⊢
      by_cases h6 : (IndexByteString (a.data.take i) ':').isSome
      · rw [if_pos h6] at h
        simp [addrErr] at h
      · rw [if_neg h6] at h ⊢
        by_cases h3 : (IndexByteString (a.data.drop 0) '[').isSome
        · rw [if_pos h3] at h
          simp [addrErr] at h
        · rw [if_neg h3] at h ⊢
          by_cases h4 : (IndexByteString (a.data.drop 0) ']').isSome
          · rw [if_pos h4] at h
            simp [addrErr] at h
          · rw [if_neg h4] at h ⊢
            left
            apply String.ext
            show a.data = (List.take i a.data ++ [':']) ++ List.drop (i + 1) a.data
            simpa using hsplit

/-- C4: for a request with a non-empty token, `CheckRequest` makes one outbound call,
a form POST to `https://www.google.com/recaptcha/api/siteverify` whose form has the
three keys `secret`, `response` and `remoteip` with one value each: the configured
secret, the token, and the host `net.SplitHostPort` returns for `RemoteAddr`.  That
host is the `host` of an address `host:port` or `[host]:port` when the split succeeds
and the empty string when it fails; the key is there and the call is made either way. -/
theorem CheckRequest_outbound_call (env : Env) (re : Recaptcha) (r : Request)
    (c : Option Client) (htok : r.FormValue "g-recaptcha-response" ≠ "") :
    (CheckRequest env re (some r) c).trace.filter Event.isPostForm =
        [Event.PostForm (env.clientFor c).addr "https://www.google.com/recaptcha/api/siteverify"
          [("secret", [re.Secret]), ("response", [r.FormValue "g-recaptcha-response"]),
            ("remoteip", [(SplitHostPort r.RemoteAddr).1])]]
      ∧ ((SplitHostPort r.RemoteAddr).2.2 = none →
          r.RemoteAddr = (SplitHostPort r.RemoteAddr).1 ++ ":" ++ (SplitHostPort r.RemoteAddr).2.1
            ∨ r.RemoteAddr =
              "[" ++ (SplitHostPort r.RemoteAddr).1 ++ "]:" ++ (SplitHostPort r.RemoteAddr).2.1)
      ∧ ((SplitHostPort r.RemoteAddr).2.2 ≠ none → (SplitHostPort r.RemoteAddr).1 = "") := by
  refine ⟨?_, SplitHostPort_shape r.RemoteAddr, SplitHostPort_host_of_error r.RemoteAddr⟩
  rw [CheckRequest_of_token env re r c htok]
  cases hp : (env.clientFor c).PostForm apiURL (postData re r) with
  | error e => simp [Event.isPostForm, postData, apiURL]
  | ok srv =>
    simp only [readAndDecode_trace]
    cases hr : srv.Body.readErr <;> simp [Event.isPostForm, postData, apiURL]

/-- C4 at a peer `203.0.113.9:51324`, where the form carries the host, and at a peer
`localhost`, where the split fails: the form carries an empty `remoteip` and the call
is answered as usual. -/
theorem CheckRequest_outbound_call_witness :
    (tokenRequest.FormValue "g-recaptcha-response" ≠ ""
      ∧ (CheckRequest stubEnv ⟨"6LeSecret"⟩ (some tokenRequest)
          (some (stubClient 1 (Except.ok (ok200 bodySuccess))))).trace.filter Event.isPostForm =
        [Event.PostForm 1 "https://www.google.com/recaptcha/api/siteverify"
          [("secret", ["6LeSecret"]), ("response", ["03AGdBq25"]),
            ("remoteip", ["203.0.113.9"])]])
    ∧ (portlessRequest.FormValue "g-recaptcha-response" ≠ ""
      ∧ (SplitHostPort portlessRequest.RemoteAddr).2.2 ≠ none
      ∧ (CheckRequest stubEnv ⟨"6LeSecret"⟩ (some portlessRequest)
          (some (stubClient 1 (Except.ok (ok200 bodySuccess))))).trace.filter Event.isPostForm =
        [Event.PostForm 1 "https://www.google.com/recaptcha/api/siteverify"
          [("secret", ["6LeSecret"]), ("response", ["03AGdBq25"]), ("remoteip", [""])]]
      ∧ (CheckRequest stubEnv ⟨"6LeSecret"⟩ (some portlessRequest)
          (some (stubClient 1 (Except.ok (ok200 bodySuccess))))).err = none) :=
  ⟨⟨by decide,
      (CheckRequest_outbound_call stubEnv ⟨"6LeSecret"⟩ tokenRequest
        (some (stubClient 1 (Except.ok (ok200 bodySuccess)))) (by decide)).1⟩,
    ⟨by decide, by decide,
      (CheckRequest_outbound_call stubEnv ⟨"6LeSecret"⟩ portlessRequest
        (some (stubClient 1 (Except.ok (ok200 bodySuccess)))) (by decide)).1,
      by decide⟩⟩

/-- C5: the code does send `remoteip`.  For the request from `203.0.113.9:51324`
with a token, the form posted has the key `remoteip` with the value `203.0.113.9`. -/
theorem CheckRequest_posts_remoteip :
    (CheckRequest stubEnv ⟨"6LeSecret"⟩ (some tokenRequest) none).trace.filter
        Event.isPostForm =
      [Event.PostForm 0 apiURL
        [("secret", ["6LeSecret"]), ("response", ["03AGdBq25"]),
          ("remoteip", ["203.0.113.9"])]]
    ∧ List.lookup "remoteip" (postData ⟨"6LeSecret"⟩ tokenRequest) = some ["203.0.113.9"] := by
  decide

/-- C6: for a request with a non-empty token and a transport whose `PostForm` fails
with error `e`, `CheckRequest` returns the error "Could not connect to Recaptcha
service: " followed by `e`, with the zero `Response` (no success, zero time, empty
hostname, nil error list); the trace ends at the outbound call, so no body is read or
decoded. -/
theorem CheckRequest_network_error (env : Env) (re : Recaptcha) (r : Request)
    (c : Option Client) (e : String) (htok : r.FormValue "g-recaptcha-response" ≠ "")
    (hpost : (env.clientFor c).PostForm apiURL (postData re r) = Except.error e) :
    (CheckRequest env re (some r) c).err = some ("Could not connect to Recaptcha service: " ++ e)
      ∧ (CheckRequest env re (some r) c).resp = ⟨false, Time.zero, "", none⟩
      ∧ (CheckRequest env re (some r) c).trace =
          [Event.FormValue "g-recaptcha-response", Event.SplitHostPort r.RemoteAddr,
            Event.PostForm (env.clientFor c).addr apiURL (postData re r)]
      ∧ (CheckRequest env re (some r) c).trace.filter Event.isReadOrDecode = [] := by
  rw [CheckRequest_of_token env re r c htok, hpost]
  simp [Response.zero, Event.isReadOrDecode]

/-- C6 at the default client of `stubEnv`, which cannot connect. -/
theorem CheckRequest_network_error_witness :
    tokenRequest.FormValue "g-recaptcha-response" ≠ ""
      ∧ (stubEnv.clientFor none).PostForm apiURL (postData ⟨"6LeSecret"⟩ tokenRequest) =
          Except.error "dial tcp: no route to host"
      ∧ (CheckRequest stubEnv ⟨"6LeSecret"⟩ (some tokenRequest) none).err =
          some "Could not connect to Recaptcha service: dial tcp: no route to host"
      ∧ (CheckRequest stubEnv ⟨"6LeSecret"⟩ (some tokenRequest) none).resp =
          ⟨false, Time.zero, "", none⟩
      ∧ (CheckRequest stubEnv ⟨"6LeSecret"⟩ (some tokenRequest) none).trace.filter
          Event.isReadOrDecode = [] :=
  ⟨by decide, rfl,
    (CheckRequest_network_error stubEnv ⟨"6LeSecret"⟩ tokenRequest none _ (by decide) rfl).1,
    (CheckRequest_network_error stubEnv ⟨"6LeSecret"⟩ tokenRequest none _ (by decide) rfl).2.1,
    (CheckRequest_network_error stubEnv ⟨"6LeSecret"⟩ tokenRequest none _ (by decide)
      rfl).2.2.2⟩

/-- C7 as stated fails: the body `null` reads in full and is not a JSON object of the
response schema, yet the decoder reports no error on it, and `CheckRequest` returns
the zero `Response` with a nil error, not a decode error. -/
theorem CheckRequest_null_body_no_error :
    tokenRequest.FormValue "g-recaptcha-response" ≠ ""
      ∧ (ok200 "null").Body.readErr = none
      ∧ validResponseJSON (ok200 "null").Body.data = false
      ∧ (CheckRequest stubEnv ⟨"6LeSecret"⟩ (some tokenRequest)
          (some (stubClient 1 (Except.ok (ok200 "null"))))).err = none
      ∧ (CheckRequest stubEnv ⟨"6LeSecret"⟩ (some tokenRequest)
          (some (stubClient 1 (Except.ok (ok200 "null"))))).resp = ⟨false, Time.zero, "", none⟩ := by
  decide

/-- C7, amended: for a request with a non-empty token and a transport that answers
with a body which reads in full and on which the decoder reports an error `e`,
`CheckRequest` returns the error "Invalid response from Recaptcha service: " followed
by `e`, with the zero `Response`, whatever the decoder had stored (`R`) before it
failed. -/
theorem CheckRequest_decode_error (env : Env) (re : Recaptcha) (r : Request)
    (c : Option Client) (srv : HttpResponse) (R : Response) (e : String)
    (htok : r.FormValue "g-recaptcha-response" ≠ "")
    (hpost : (env.clientFor c).PostForm apiURL (postData re r) = Except.ok srv)
    (hread : srv.Body.readErr = none)
    (hdec : env.Unmarshal srv.Body.data Response.zero = (R, some e)) :
    (CheckRequest env re (some r) c).err =
        some ("Invalid response from Recaptcha service: " ++ e)
      ∧ (CheckRequest env re (some r) c).resp = ⟨false, Time.zero, "", none⟩ := by
  rw [CheckRequest_of_token env re r c htok, hpost]
  simp only [readAndDecode, ReadAll, hread, hdec]
  exact ⟨trivial, rfl⟩

/-- C7, amended, at a body that is not JSON, and at a JSON object whose `hostname` is
a number: there the decoder has stored `success` before it reports the error, and the
result returned is the zero `Response` all the same. -/
theorem CheckRequest_decode_error_witness :
    (tokenRequest.FormValue "g-recaptcha-response" ≠ ""
      ∧ stubEnv.Unmarshal bodyNotJSON Response.zero =
          (Response.zero, some "invalid character \x27<\x27 looking for beginning of value")
      ∧ (CheckRequest stubEnv ⟨"6LeSecret"⟩ (some tokenRequest)
          (some (stubClient 1 (Except.ok (ok200 bodyNotJSON))))).err =
          some ("Invalid response from Recaptcha service: " ++
            "invalid character \x27<\x27 looking for beginning of value")
      ∧ (CheckRequest stubEnv ⟨"6LeSecret"⟩ (some tokenRequest)
          (some (stubClient 1 (Except.ok (ok200 bodyNotJSON))))).resp =
          ⟨false, Time.zero, "", none⟩)
    ∧ (stubEnv.Unmarshal bodyMistyped Response.zero =
          (⟨true, Time.zero, "", none⟩,
            some ("json: cannot unmarshal number into Go struct field " ++
              "Response.hostname of type string"))
      ∧ (CheckRequest stubEnv ⟨"6LeSecret"⟩ (some tokenRequest)
          (some (stubClient 1 (Except.ok (ok200 bodyMistyped))))).err =
          some ("Invalid response from Recaptcha service: " ++
            ("json: cannot unmarshal number into Go struct field " ++
              "Response.hostname of type string"))
      ∧ (CheckRequest stubEnv ⟨"6LeSecret"⟩ (some tokenRequest)
          (some (stubClient 1 (Except.ok (ok200 bodyMistyped))))).resp =
          ⟨false, Time.zero, "", none⟩) :=
  ⟨⟨by decide, by decide,
      (CheckRequest_decode_error stubEnv ⟨"6LeSecret"⟩ tokenRequest
        (some (stubClient 1 (Except.ok (ok200 bodyNotJSON))))
        (ok200 bodyNotJSON) Response.zero
        "invalid character \x27<\x27 looking for beginning of value"
        (by decide) rfl rfl (by decide)).1,
      (CheckRequest_decode_error stubEnv ⟨"6LeSecret"⟩ tokenRequest
        (some (stubClient 1 (Except.ok (ok200 bodyNotJSON))))
        (ok200 bodyNotJSON) Response.zero
        "invalid character \x27<\x27 looking for beginning of value"
        (by decide) rfl rfl (by decide)).2⟩,
    ⟨by decide,
      (CheckRequest_decode_error stubEnv ⟨"6LeSecret"⟩ tokenRequest
        (some (stubClient 1 (Except.ok (ok200 bodyMistyped)))) (ok200 bodyMistyped)
        ⟨true, Time.zero, "", none⟩
        ("json: cannot unmarshal number into Go struct field " ++
          "Response.hostname of type string") (by decide) rfl rfl (by decide)).1,
      (CheckRequest_decode_error stubEnv ⟨"6LeSecret"⟩ tokenRequest
        (some (stubClient 1 (Except.ok (ok200 bodyMistyped)))) (ok200 bodyMistyped)
        ⟨true, Time.zero, "", none⟩
        ("json: cannot unmarshal number into Go struct field " ++
          "Response.hostname of type string") (by decide) rfl rfl (by decide)).2⟩⟩

/-- C8: a nil client is `http.DefaultClient`: for every request and secret the call
with `none` has the outcome (results and trace, so also the outbound call) of the call
with `http.DefaultClient`, and for a request with a token its one outbound call is a
`PostForm` on `http.DefaultClient`, whose answer it goes on with.  A client that is
supplied is the one used: the outcome is the same whatever `http.DefaultClient` is,
every outbound call of the trace is on the supplied client, and for a request with a
token the one outbound call is a `PostForm` on that client, whose answer the call goes
on with (its error is the one reported, its body the one read). -/
theorem CheckRequest_default_client (env : Env) (re : Recaptcha) (r : Option Request)
    (c d : Client) :
    CheckRequest env re r none = CheckRequest env re r (some env.DefaultClient)
      ∧ CheckRequest ⟨d, env.Unmarshal⟩ re r (some c) = CheckRequest env re r (some c)
      ∧ (∀ a url data, Event.PostForm a url data ∈ (CheckRequest env re r (some c)).trace →
          a = c.addr)
      ∧ (∀ q, r = some q → q.FormValue "g-recaptcha-response" ≠ "" →
          ((CheckRequest env re r none).trace.filter Event.isPostForm =
              [Event.PostForm env.DefaultClient.addr apiURL (postData re q)]
            ∧ (∀ e, env.DefaultClient.PostForm apiURL (postData re q) = Except.error e →
                (CheckRequest env re r none).err =
                  some ("Could not connect to Recaptcha service: " ++ e))
            ∧ (∀ srv, env.DefaultClient.PostForm apiURL (postData re q) = Except.ok srv →
                Event.ReadAll srv.Body ∈ (CheckRequest env re r none).trace))
          ∧ ((CheckRequest env re r (some c)).trace.filter Event.isPostForm =
              [Event.PostForm c.addr apiURL (postData re q)]
            ∧ (∀ e, c.PostForm apiURL (postData re q) = Except.error e →
                (CheckRequest env re r (some c)).err =
                  some ("Could not connect to Recaptcha service: " ++ e))
            ∧ (∀ srv, c.PostForm apiURL (postData re q) = Except.ok srv →
                Event.ReadAll srv.Body ∈ (CheckRequest env re r (some c)).trace))) := by
  refine ⟨?_, ?_, ?_, ?_⟩
  · cases r <;> rfl
  · cases r <;> rfl
  · intro a url data hmem
    cases r with
    | none => simp [CheckRequest] at hmem
    | some r =>
      by_cases htok : r.FormValue "g-recaptcha-response" = ""
      · simp [CheckRequest, htok] at hmem
      · rw [CheckRequest_of_token env re r (some c) htok] at hmem
        cases hp : (env.clientFor (some c)).PostForm apiURL (postData re r) with
        | error e =>
          rw [hp] at hmem
          simp [Env.clientFor] at hmem
          exact hmem.1
        | ok srv =>
          rw [hp] at hmem
          simp only [readAndDecode_trace] at hmem
          cases hr : srv.Body.readErr <;> simp [hr, Env.clientFor] at hmem <;> exact hmem.1
  · intro q hq htok
    subst hq
    have key : ∀ k : Option Client,
        (CheckRequest env re (some q) k).trace.filter Event.isPostForm =
            [Event.PostForm (env.clientFor k).addr apiURL (postData re q)]
          ∧ (∀ e, (env.clientFor k).PostForm apiURL (postData re q) = Except.error e →
              (CheckRequest env re (some q) k).err =
                some ("Could not connect to Recaptcha service: " ++ e))
          ∧ (∀ srv, (env.clientFor k).PostForm apiURL (postData re q) = Except.ok srv →
              Event.ReadAll srv.Body ∈ (CheckRequest env re (some q) k).trace) := by
      intro k
      rw [CheckRequest_of_token env re q k htok]
      cases hp : (env.clientFor k).PostForm apiURL (postData re q) with
      | error e => simp [Event.isPostForm]
      | ok srv =>
        simp only [readAndDecode_trace]
        cases hr : srv.Body.readErr <;> simp [Event.isPostForm]
    exact ⟨key none, key (some c)⟩

/-- C8 at a default client that cannot connect (identity 0) and a supplied client
that answers (identity 1): with a nil client the one call is on the default client
and its error is reported; with the supplied client the one call is on that client
and its body is decoded. -/
theorem CheckRequest_default_client_witness :
    ((CheckRequest stubEnv ⟨"6LeSecret"⟩ (some tokenRequest) none).trace.filter
          Event.isPostForm =
        [Event.PostForm 0 "https://www.google.com/recaptcha/api/siteverify"
          [("secret", ["6LeSecret"]), ("response", ["03AGdBq25"]),
            ("remoteip", ["203.0.113.9"])]]
      ∧ (CheckRequest stubEnv ⟨"6LeSecret"⟩ (some tokenRequest) none).err =
          some "Could not connect to Recaptcha service: dial tcp: no route to host")
    ∧ ((CheckRequest stubEnv ⟨"6LeSecret"⟩ (some tokenRequest)
          (some (stubClient 1 (Except.ok (ok200 bodySuccess))))).trace.filter
          Event.isPostForm =
        [Event.PostForm 1 "https://www.google.com/recaptcha/api/siteverify"
          [("secret", ["6LeSecret"]), ("response", ["03AGdBq25"]),
            ("remoteip", ["203.0.113.9"])]]
      ∧ Event.ReadAll ⟨bodySuccess, none, none⟩ ∈
          (CheckRequest stubEnv ⟨"6LeSecret"⟩ (some tokenRequest)
            (some (stubClient 1 (Except.ok (ok200 bodySuccess))))).trace
      ∧ (CheckRequest stubEnv ⟨"6LeSecret"⟩ (some tokenRequest)
          (some (stubClient 1 (Except.ok (ok200 bodySuccess))))).resp.Success = true) :=
  ⟨⟨((CheckRequest_default_client stubEnv ⟨"6LeSecret"⟩ (some tokenRequest)
        (stubClient 1 (Except.ok (ok200 bodySuccess))) stubEnv.DefaultClient).2.2.2
          tokenRequest rfl (by decide)).1.1,
      ((CheckRequest_default_client stubEnv ⟨"6LeSecret"⟩ (some tokenRequest)
        (stubClient 1 (Except.ok (ok200 bodySuccess))) stubEnv.DefaultClient).2.2.2
          tokenRequest rfl (by decide)).1.2.1 _ rfl⟩,
    ⟨((CheckRequest_default_client stubEnv ⟨"6LeSecret"⟩ (some tokenRequest)
        (stubClient 1 (Except.ok (ok200 bodySuccess))) stubEnv.DefaultClient).2.2.2
          tokenRequest rfl (by decide)).2.1,
      ((CheckRequest_default_client stubEnv ⟨"6LeSecret"⟩ (some tokenRequest)
        (stubClient 1 (Except.ok (ok200 bodySuccess))) stubEnv.DefaultClient).2.2.2
          tokenRequest rfl (by decide)).2.2.2 _ rfl,
      by decide⟩⟩

/-- C9 as stated fails: a call with a nil request makes no outbound call, not one. -/
theorem CheckRequest_nil_makes_no_call :
    ¬ ((CheckRequest stubEnv ⟨"6LeSecret"⟩ none none).trace.countP Event.isPostForm = 1) := by
  decide

/-- C9, amended: a call of `CheckRequest` makes one outbound call when the request is
not nil and carries a non-empty token, and none otherwise; never more than one,
whatever the transport, the read or the decode does; and the receiver, with its
secret, is after the call what it was before. -/
theorem CheckRequest_call_count (env : Env) (re : Recaptcha) (r : Option Request)
    (c : Option Client) :
    (CheckRequest env re r c).trace.countP Event.isPostForm =
        (match r with
          | none => 0
          | some r => if r.FormValue "g-recaptcha-response" = "" then 0 else 1)
      ∧ (CheckRequest env re r c).re = re
      ∧ (CheckRequest env re r c).re.Secret = re.Secret := by
  cases r with
  | none => simp [CheckRequest]
  | some r =>
    by_cases htok : r.FormValue "g-recaptcha-response" = ""
    · simp [CheckRequest, htok, Event.isPostForm]
    · rw [CheckRequest_of_token env re r c htok]
      cases hp : (env.clientFor c).PostForm apiURL (postData re r) with
      | error e => simp [htok, Event.isPostForm]
      | ok srv =>
        simp only [readAndDecode_trace, readAndDecode_re]
        cases hr : srv.Body.readErr <;> simp [htok, Event.isPostForm, List.countP_cons]

/-- C10: the `Close` events of the trace are one `Close` of the body that `PostForm`
opened when it opened one, and none otherwise (nil request, empty token, failed
`PostForm`).  That one `Close` is the last event of the trace, after the read and the
decode, whether these succeed or fail. -/
theorem CheckRequest_closes_body (env : Env) (re : Recaptcha) (r : Option Request)
    (c : Option Client) :
    (CheckRequest env re r c).trace.filter Event.isClose =
        (openedBody env re r c).toList.map Event.Close
      ∧ (∀ b, openedBody env re r c = some b →
          (CheckRequest env re r c).trace.getLast? = some (Event.Close b)) := by
  cases r with
  | none => simp [CheckRequest, openedBody]
  | some r =>
    by_cases htok : r.FormValue "g-recaptcha-response" = ""
    · simp [CheckRequest, openedBody, htok, Event.isClose]
    · rw [CheckRequest_of_token env re r c htok]
      cases hp : (env.clientFor c).PostForm apiURL (postData re r) with
      | error e => simp [openedBody, htok, hp, Event.isClose]
      | ok srv =>
        simp only [readAndDecode_trace]
        cases hr : srv.Body.readErr <;> simp [openedBody, htok, hp, Event.isClose]

/-- C10 on the three exits past a successful `PostForm`: a body that decodes, a body
whose read fails and a body that does not decode are each closed once, last. -/
theorem CheckRequest_closes_body_witness :
    ((CheckRequest stubEnv ⟨"6LeSecret"⟩ (some tokenRequest)
        (some (stubClient 1 (Except.ok (ok200 bodySuccess))))).trace.filter Event.isClose =
      [Event.Close ⟨bodySuccess, none, none⟩])
    ∧ ((CheckRequest stubEnv ⟨"6LeSecret"⟩ (some tokenRequest)
        (some (stubClient 1 (Except.ok ⟨200, ⟨"\x7b\"succ", some "unexpected EOF", none⟩⟩)))).trace
          = [Event.FormValue "g-recaptcha-response", Event.SplitHostPort "203.0.113.9:51324",
              Event.PostForm 1 apiURL (postData ⟨"6LeSecret"⟩ tokenRequest),
              Event.ReadAll ⟨"\x7b\"succ", some "unexpected EOF", none⟩,
              Event.Close ⟨"\x7b\"succ", some "unexpected EOF", none⟩])
    ∧ ((CheckRequest stubEnv ⟨"6LeSecret"⟩ (some tokenRequest)
        (some (stubClient 1 (Except.ok (ok200 bodyMistyped))))).trace.getLast? =
      some (Event.Close ⟨bodyMistyped, none, none⟩)) :=
  ⟨(CheckRequest_closes_body stubEnv ⟨"6LeSecret"⟩ (some tokenRequest)
      (some (stubClient 1 (Except.ok (ok200 bodySuccess))))).1,
    by decide,
    (CheckRequest_closes_body stubEnv ⟨"6LeSecret"⟩ (some tokenRequest)
      (some (stubClient 1 (Except.ok (ok200 bodyMistyped))))).2 _ (by decide)⟩

end recaptcha
